import Mathlib

/-!
Verification of the LogiFlow event-distribution and realtime fan-out core:
a shallow embedding of the realtime gateway (`realtime-service/main.py`),
the notification consumer (`notification-service/main.py`) and the
producer-side publish logic (`pedido-service/repository.py`,
`fleet-service/repository.py`), together with proofs of the spec claims.

Python JSON values are modelled by the inductive `Json`; Python's
`json.loads` is modelled as an oracle parameter of type `Option Json`
(`none` = the text is not valid JSON).  WebSocket handles are modelled by
natural numbers; a send to a socket is modelled by an oracle
`sendOk : Conn → Bool` (whether the send raised).  The gateway's
`topic_subscribers` default-dict is modelled extensionally as a total
function from topic (a Python value, since any hashable value can be a
dict key) to the subscriber set: the code only ever observes the dict
through the subscriber set of a given key, for which the two views agree.
-/

/-- A parsed Python/JSON value (`json.loads` result).  Arrays and objects
are represented in cons form (`arrCons` / `objCons`) rather than with
`List`, so that decidable equality can be derived structurally;
`Json.mkObj` builds an object from an association list.  A value is
well-formed when every `arrCons` tail is again an array and every
`objCons` rest again an object; the parse oracle only produces such
values, and no definition below depends on well-formedness. -/
inductive Json where
  | null
  | bool (b : Bool)
  | num (n : Int)
  | str (s : String)
  | arrNil
  | arrCons (head tail : Json)
  | objNil
  | objCons (key : String) (val : Json) (rest : Json)
deriving DecidableEq, Repr

/-- Build a JSON object from an association list of fields. -/
def Json.mkObj : List (String × Json) → Json
  | [] => .objNil
  | (k, v) :: fs => .objCons k v (Json.mkObj fs)

/-- `isinstance(v, dict)`. -/
def Json.isObj : Json → Bool
  | .objNil => true
  | .objCons _ _ _ => true
  | _ => false

/-- Python `d.get(k)` on a dict: `none` when the key is absent (callers
below only apply this where the code has established the value is a
dict). -/
def Json.objGet : Json → String → Option Json
  | .objCons k v rest, key => if k = key then some v else Json.objGet rest key
  | _, _ => none

/-- Python `d.get(k, default)`: the default only when the key is absent. -/
def Json.objGetD (j : Json) (k : String) (d : Json) : Json :=
  (j.objGet k).getD d

/-- Python truthiness of a JSON value (`true` iff `bool(v)` is `False`):
`None`, `False`, `0`, `""`, `[]` and `{}` are falsy. -/
def Json.falsy : Json → Bool
  | .null => true
  | .bool b => !b
  | .num n => n == 0
  | .str s => s == ""
  | .arrNil => true
  | .objNil => true
  | _ => false

/-- Python `a or b`: `b` when `a` is falsy, else `a`. -/
def Json.pyOr (a b : Json) : Json := if a.falsy then b else a

/-- A WebSocket connection handle (`ws` in the source). -/
abbrev Conn := Nat

/-- The realtime gateway's shared mutable state: the global set
`connections` and the `topic_subscribers` default-dict (modelled
extensionally, topic key → subscriber set; an absent key and a key
mapped to an empty set are indistinguishable to the code's reads). -/
structure Gateway where
  connections : Finset Conn
  subs : Json → Finset Conn

/-- Gateway state at process start: no connections, no subscriptions. -/
def Gateway.init : Gateway := ⟨∅, fun _ => ∅⟩

/-- `status.WS_1008_POLICY_VIOLATION`. -/
def WS_1008_POLICY_VIOLATION : Nat := 1008

/-- The default topic `"realtime.location"` (realtime-service/main.py
lines 71, 87, 115, 147). -/
def defaultTopic : String := "realtime.location"

/-- `ws.query_params.get("topic") or "realtime.location"`: Python `or`
falls to the default for a missing parameter and for the empty string. -/
def topicParamOrDefault : Option String → String
  | none => defaultTopic
  | some t => if t = "" then defaultTopic else t

/-- Python `s.startswith(p)`, computed on the character lists. -/
def pyStartsWith (s p : String) : Bool :=
  p.toList.isPrefixOf s.toList

/-- Result of the WebSocket handshake portion of `websocket_endpoint`
(realtime-service/main.py lines 53-77): the state after the handshake,
whether the upgrade was accepted, whether the welcome frame was sent, and
the close code sent when the connection was rejected. -/
structure HandshakeOutcome where
  state : Gateway
  accepted : Bool
  welcomed : Bool
  closeCode : Option Nat

/-- The handshake of `websocket_endpoint` (realtime-service/main.py lines
53-77).  `authHeader` is the `Authorization` header (`none` when absent;
Python's `not auth_header` also rejects the empty string, which the
`startswith` test below rejects as well), `verifyStatus` the status code
the auth service returned for `GET /api/auth/verify` (any non-200 makes
`verify_token_with_auth` raise `HTTPException`), `topicParam` the `topic`
query parameter.  On success the connection is added to `connections` and
to the initial topic's subscriber set and the welcome frame is sent; on
failure the socket is closed with code 1008 and the state is untouched. -/
def handshake (s : Gateway) (ws : Conn) (authHeader : Option String)
    (verifyStatus : Nat) (topicParam : Option String) : HandshakeOutcome :=
  match authHeader with
  | none => ⟨s, false, false, some WS_1008_POLICY_VIOLATION⟩
  | some h =>
    if !pyStartsWith h "Bearer " then
      ⟨s, false, false, some WS_1008_POLICY_VIOLATION⟩
    else if verifyStatus ≠ 200 then
      ⟨s, false, false, some WS_1008_POLICY_VIOLATION⟩
    else
      let initialTopic := Json.str (topicParamOrDefault topicParam)
      ⟨⟨insert ws s.connections,
        fun t => if t = initialTopic then insert ws (s.subs t) else s.subs t⟩,
       true, true, none⟩

/-- `{"type": "echo", "data": msg_text}`: the wrapper built when the
client frame is not valid JSON (realtime-service/main.py line 84). -/
def echoWrap (raw : String) : Json :=
  Json.mkObj [("type", Json.str "echo"), ("data", Json.str raw)]

/-- `isinstance(msg, dict) and msg.get("type") == "subscribe"`
(realtime-service/main.py line 86). -/
def isSubscribeMsg (msg : Json) : Bool :=
  msg.isObj && decide (msg.objGet "type" = some (Json.str "subscribe"))

/-- `msg.get("topic") or "realtime.location"` (realtime-service/main.py
line 87): the topic named by a subscribe message, falling back to the
default topic when the field is absent or falsy (`d.get` returns `None`
for an absent key, and `None` is falsy). -/
def subscribeTopic (msg : Json) : Json :=
  Json.pyOr (Json.objGetD msg "topic" Json.null) (Json.str defaultTopic)

/-- One iteration of the receive loop of `websocket_endpoint`
(realtime-service/main.py lines 80-97) for an inbound text frame `raw`
whose `json.loads` result is `parsed`.  Returns the state after the step
and the single frame sent back to the client: for a subscribe message the
connection is discarded from every other topic's set, added to the named
topic's set, and acked with `{"type":"subscribed","topic":...}`; any
other message is echoed back unchanged. -/
def clientMessageStep (s : Gateway) (ws : Conn) (raw : String)
    (parsed : Option Json) : Gateway × Json :=
  let msg := match parsed with
    | some j => j
    | none => echoWrap raw
  if isSubscribeMsg msg then
    let topic := subscribeTopic msg
    ({ s with subs := fun t =>
        if t = topic then insert ws (s.subs t) else (s.subs t).erase ws },
     Json.mkObj [("type", Json.str "subscribed"), ("topic", topic)])
  else
    (s, msg)

/-- The disconnect / error cleanup of `websocket_endpoint`
(realtime-service/main.py lines 98-107): the connection is removed from
the global set and from every topic's subscriber set. -/
def disconnect (s : Gateway) (ws : Conn) : Gateway :=
  ⟨s.connections.erase ws, fun t => (s.subs t).erase ws⟩

/-- The fan-out sweep shared verbatim by the HTTP publish endpoint
(realtime-service/main.py lines 116-125) and the broker consumer callback
(lines 148-157): look up the topic's subscriber set, attempt a send to
each member (`sendOk c` = the send did not raise), collect the failures
in `dead`, then discard every dead connection from the topic's set and
the global set.  Returns the new state and the subscriber set after the
discards (the connections the sweep counts as delivered). -/
def fanoutSweep (s : Gateway) (topic : Json) (sendOk : Conn → Bool) :
    Gateway × Finset Conn :=
  let subs := s.subs topic
  let dead := subs.filter (fun c => ¬ sendOk c)
  (⟨s.connections \ dead,
    fun t => if t = topic then subs \ dead else s.subs t⟩,
   subs \ dead)

/-- `publish_event` (realtime-service/main.py lines 110-126), the
`POST /api/ws/publish` endpoint.  `event` is the request body (declared
`Dict`, so FastAPI only admits a JSON object).  The topic is
`event.get("type", "realtime.location")`; the response is
`{"topic": topic, "delivered": len(subs)}` with `len(subs)` taken after
the dead connections were discarded.  Returns
(state after, topic, delivered count). -/
def publish_event (s : Gateway) (event : Json) (sendOk : Conn → Bool) :
    Gateway × Json × Nat :=
  let topic := event.objGetD "type" (Json.str defaultTopic)
  let (s', delivered) := fanoutSweep s topic sendOk
  (s', topic, delivered.card)

/-- The broker consumer `callback` of `_rabbit_consumer`
(realtime-service/main.py lines 142-158).  `routingKey` is
`method.routing_key`, `parsed` the `json.loads` of the body, `raw` the
decoded body used by the raw fallback.  The topic is
`method.routing_key or event.get("type", "realtime.location")` (the
fallback only fires for an empty routing key); then the fan-out sweep
runs and the message is acked.  Returns
(state after, delivered set, acked). -/
def brokerCallback (s : Gateway) (routingKey : String) (parsed : Option Json)
    (raw : String) (sendOk : Conn → Bool) : Gateway × Finset Conn × Bool :=
  let event := match parsed with
    | some j => j
    | none => Json.mkObj [("type", Json.str "raw"), ("data", Json.str raw)]
  let topic := if routingKey = "" then event.objGetD "type" (Json.str defaultTopic)
    else Json.str routingKey
  let (s', delivered) := fanoutSweep s topic sendOk
  (s', delivered, true)

/-- One transition of the gateway's shared state, as performed by the
concurrent tasks of the service: a WebSocket handshake (on a fresh socket
object, which therefore belongs to no subscriber set yet), one iteration
of a connection's receive loop, a disconnect cleanup, the HTTP publish
endpoint, or the broker consumer callback.  Each handler runs without an
interleaving point inside the modelled region, so it is one step. -/
inductive GatewayStep : Gateway → Gateway → Prop where
  | ofHandshake (s : Gateway) (ws : Conn) (authHeader : Option String)
      (verifyStatus : Nat) (topicParam : Option String) :
      ws ∉ s.connections → (∀ t, ws ∉ s.subs t) →
      GatewayStep s (handshake s ws authHeader verifyStatus topicParam).state
  | ofClientMsg (s : Gateway) (ws : Conn) (raw : String) (parsed : Option Json) :
      GatewayStep s (clientMessageStep s ws raw parsed).1
  | ofDisconnect (s : Gateway) (ws : Conn) :
      GatewayStep s (disconnect s ws)
  | ofHttpPublish (s : Gateway) (event : Json) (sendOk : Conn → Bool) :
      GatewayStep s (publish_event s event sendOk).1
  | ofBroker (s : Gateway) (routingKey : String) (parsed : Option Json)
      (raw : String) (sendOk : Conn → Bool) :
      GatewayStep s (brokerCallback s routingKey parsed raw sendOk).1

/-- The gateway states reachable from process start. -/
inductive Reachable : Gateway → Prop where
  | init : Reachable Gateway.init
  | step {s s' : Gateway} : Reachable s → GatewayStep s s' → Reachable s'

/-- The subscription-index invariant: a connection appears in at most one
topic's subscriber set. -/
def atMostOneTopic (s : Gateway) : Prop :=
  ∀ c t₁ t₂, c ∈ s.subs t₁ → c ∈ s.subs t₂ → t₁ = t₂

/-- The JSON text frame `{"type": "subscribe", "topic": T}`. -/
def subscribeMsg (T : String) : Json :=
  Json.mkObj [("type", Json.str "subscribe"), ("topic", Json.str T)]

/-- The acknowledgment frame `{"type": "subscribed", "topic": T}`. -/
def subscribedAck (T : String) : Json :=
  Json.mkObj [("type", Json.str "subscribed"), ("topic", Json.str T)]

/-- A row of the notification consumer's `notifications` table
(notification-service/models.py): `event_type` holds the value the
callback passed for the column, `routing_key` is nullable, `created_at`
is the insertion timestamp (`server_default=func.now()`), modelled as a
natural number. -/
structure Notification where
  id : Nat
  event_type : Json
  routing_key : Option String
  payload : Json
  created_at : Nat
deriving DecidableEq, Repr

/-- The notification consumer's `callback` (notification-service/main.py
lines 67-88).  `parsed` is the `json.loads` of the body (`none` = not
valid JSON, degraded to the raw record `{"raw": body}`), `persistOk`
whether the session/commit succeeded, `now` the insertion timestamp.
A row `(event_type = event.get("type","unknown"), routing_key, payload =
event, created_at = now)` is appended when the persistence attempt
succeeds (a parsed non-dict body makes `event.get` raise inside the
guarded block, so nothing is stored); the second component is the number
of `basic_ack` calls, which is 1 on every path because the ack sits after
the try/except/finally. -/
def notifCallback (store : List Notification) (nextId : Nat) (raw : String)
    (parsed : Option Json) (routingKey : String) (persistOk : Bool)
    (now : Nat) : List Notification × Nat :=
  let event := match parsed with
    | some j => j
    | none => Json.mkObj [("raw", Json.str raw)]
  let store' :=
    if event.isObj && persistOk then
      store ++ [⟨nextId, event.objGetD "type" (Json.str "unknown"),
                some routingKey, event, now⟩]
    else store
  (store', 1)

/-- `anySuffix f s`: does `f` hold of some suffix of `s`? -/
def anySuffix (f : List Char → Bool) : List Char → Bool
  | [] => f []
  | c :: s => f (c :: s) || anySuffix f s

/-- SQL `ILIKE` matching (PostgreSQL semantics, as used by
`Notification.routing_key.ilike(pattern)` on the `postgresql+psycopg2`
backend, where no `ESCAPE` clause is emitted so the default backslash
escape applies): `%` matches any sequence of characters, `_` matches
exactly one character, a backslash makes the following pattern character
literal (matched case-insensitively, like every literal character), and
any other pattern character matches case-insensitively.  A pattern
ending in a lone backslash is an error in PostgreSQL (the query fails
and no row is returned); it is modelled as matching nothing.  The
endpoint's pattern ends in `.%`, so that corner is never reached from
`list_notifications_by_category`. -/
def likeMatch : List Char → List Char → Bool
  | [], s => s.isEmpty
  | p :: ps, s =>
    if p = '%' then
      anySuffix (likeMatch ps) s
    else if p = '\\' then
      match ps with
      | [] => false
      | q :: ps' =>
        match s with
        | [] => false
        | c :: s' => (q.toLower == c.toLower) && likeMatch ps' s'
    else
      match s with
      | [] => false
      | c :: s' =>
        if p = '_' then likeMatch ps s'
        else (p.toLower == c.toLower) && likeMatch ps s'

/-- The ordering used by `query.order_by(Notification.created_at.desc())`:
newer rows first. -/
def notifOrder (a b : Notification) : Prop := b.created_at ≤ a.created_at

instance : DecidableRel notifOrder := fun a b => Nat.decLe b.created_at a.created_at

instance : IsTotal Notification notifOrder :=
  ⟨fun a b => le_total b.created_at a.created_at⟩

instance : IsTrans Notification notifOrder :=
  ⟨fun _ _ _ h₁ h₂ => le_trans h₂ h₁⟩

/-- `list_notifications_by_category` (notification-service/main.py lines
127-136), `GET /api/notifications/categories/{category}`: filter the
stored rows by `routing_key ILIKE category + ".%"` (a SQL `NULL` routing
key never matches), order by `created_at` descending, then apply
`offset` and `limit`. -/
def list_notifications_by_category (store : List Notification)
    (category : String) (limit offset : Nat) : List Notification :=
  let pattern := category ++ ".%"
  let matched := store.filter (fun n =>
    match n.routing_key with
    | some rk => likeMatch pattern.toList rk.toList
    | none => false)
  ((matched.insertionSort notifOrder).drop offset).take limit

/-- Modelled from the spec's reading of the claim: routing-key category
matching where the wildcard `*` of `category.*` matches exactly one
dot-delimited segment (the broker's binding-pattern semantics). -/
def specCategoryMatch (category rk : String) : Bool :=
  ((category.toList ++ ['.']).isPrefixOf rk.toList) &&
    !((rk.toList.drop (category.toList.length + 1)).contains '.')

/-- Case-insensitive prefix matching on character lists: what the SQL
pattern `p ++ "%"` amounts to when `p` contains no metacharacter. -/
def charPrefixCI : List Char → List Char → Bool
  | [], _ => true
  | _ :: _, [] => false
  | p :: ps, c :: cs => (p.toLower == c.toLower) && charPrefixCI ps cs

/-- The ways the broker publish attempt of a producer can fail: opening
the connection (`pika.BlockingConnection`), declaring the exchange
(`exchange_declare`), or publishing (`basic_publish`). -/
inductive BrokerFailure where
  | connectFail
  | declareFail
  | publishFail
deriving DecidableEq, Repr

/-- The broker publish attempt, as an oracle: `none` means all three
steps succeeded, `some e` that step `e` raised. -/
def brokerPublish (outcome : Option BrokerFailure) : Except BrokerFailure Unit :=
  match outcome with
  | some e => .error e
  | none => .ok ()

/-- The fallback `client.post(url, json=payload)` with `timeout=2.0`, as
an oracle: `ok = false` means the POST raised (unreachable gateway or
timeout). -/
def httpPost (ok : Bool) : Except Unit Unit :=
  if ok then .ok () else .error ()

/-- Observable trace of one best-effort publish: the envelope and routing
key used, whether the broker delivery succeeded, how many fallback HTTP
POSTs were made and with which body and timeout, and whether the fallback
delivered. -/
structure PublishTrace where
  envelope : Json
  routingKey : String
  exchange : String
  brokerDelivered : Bool
  httpPosts : Nat
  httpTimeoutSeconds : Nat
  httpBody : Option Json
  httpDelivered : Bool
deriving DecidableEq, Repr

/-- The producer-side publish block shared by
`PedidoRepository.create_pedido` (pedido-service/repository.py lines
93-114), `PedidoRepository.update_pedido` (lines 207-228) and
`FleetRepository.update_repartidor` (fleet-service/repository.py lines
129-150): try connect / declare exchange `logiflow.events` / publish; on
any exception, swallow it and make a single HTTP POST of the same
serialized envelope to the gateway's publish endpoint with a 2-second
timeout; if that raises too, swallow it and drop the event.  The function
is total: no failure escapes. -/
def publishWithFallback (envelope : Json) (routingKey : String)
    (brokerOutcome : Option BrokerFailure) (httpOk : Bool) : PublishTrace :=
  match brokerPublish brokerOutcome with
  | .ok _ => ⟨envelope, routingKey, "logiflow.events", true, 0, 0, none, false⟩
  | .error _ =>
    match httpPost httpOk with
    | .ok _ => ⟨envelope, routingKey, "logiflow.events", false, 1, 2, some envelope, true⟩
    | .error _ => ⟨envelope, routingKey, "logiflow.events", false, 1, 2, some envelope, false⟩

/-- The `{"type": "pedido.creado", "data": ...}` envelope of
`create_pedido` (pedido-service/repository.py lines 82-92). -/
def pedidoCreadoEnvelope (dataJ : Json) : Json :=
  Json.mkObj [("type", Json.str "pedido.creado"), ("data", dataJ)]

/-- The `{"type": "pedido.estado.actualizado", "data": ...}` envelope of
`update_pedido` (pedido-service/repository.py lines 197-206). -/
def pedidoEstadoEnvelope (dataJ : Json) : Json :=
  Json.mkObj [("type", Json.str "pedido.estado.actualizado"), ("data", dataJ)]

/-- The `{"type": "location_update", "data": ...}` envelope of
`update_repartidor` (fleet-service/repository.py lines 114-128). -/
def locationUpdateEnvelope (dataJ : Json) : Json :=
  Json.mkObj [("type", Json.str "location_update"), ("data", dataJ)]

/-- `PedidoRepository.create_pedido` (pedido-service/repository.py lines
39-116), reduced to what the claims observe: the pedido row is committed
to the database, the `pedido.creado` event is published best-effort with
routing key `"pedido.creado"`, and the already-committed entity is
returned whatever the publish outcome. -/
def create_pedido {α : Type} (db : List α) (pedido : α) (dataJ : Json)
    (brokerOutcome : Option BrokerFailure) (httpOk : Bool) :
    (List α × α) × PublishTrace :=
  ((db ++ [pedido], pedido),
   publishWithFallback (pedidoCreadoEnvelope dataJ) "pedido.creado"
     brokerOutcome httpOk)

/-- `PedidoRepository.update_pedido` (pedido-service/repository.py lines
159-230), reduced to what the claims observe: the update is committed,
and when the estado changed the `pedido.estado.actualizado` event is
published best-effort with routing key `"pedido.estado.actualizado"`;
the committed entity is returned whatever the publish outcome. -/
def update_pedido {α : Type} (pedido : α) (estadoCambiado : Bool)
    (dataJ : Json) (brokerOutcome : Option BrokerFailure) (httpOk : Bool) :
    α × Option PublishTrace :=
  (pedido,
   if estadoCambiado then
     some (publishWithFallback (pedidoEstadoEnvelope dataJ)
       "pedido.estado.actualizado" brokerOutcome httpOk)
   else none)

/-- `FleetRepository.update_repartidor` (fleet-service/repository.py
lines 92-157), reduced to what the claims observe: the update is
committed, and when the ubicación changed the `location_update` event is
published best-effort with routing key `"realtime.location"`; the
committed entity is returned whatever the publish outcome. -/
def update_repartidor {α : Type} (repartidor : α) (ubicacionCambiada : Bool)
    (dataJ : Json) (brokerOutcome : Option BrokerFailure) (httpOk : Bool) :
    α × Option PublishTrace :=
  (repartidor,
   if ubicacionCambiada then
     some (publishWithFallback (locationUpdateEnvelope dataJ)
       "realtime.location" brokerOutcome httpOk)
   else none)

/-- A concrete gateway state with one connection, subscribed to
`"realtime.location"`: the state reached by a fresh gateway after one
successful handshake with no `topic` query parameter. -/
def gwS1 : Gateway :=
  (handshake Gateway.init 0 (some "Bearer tok") 200 none).state

/-- A concrete gateway state with two connections both subscribed to
`"realtime.location"`: `gwS1` after a second successful handshake. -/
def gwS2 : Gateway :=
  (handshake gwS1 1 (some "Bearer tok2") 200 none).state

/-- A concrete stored notification row whose routing key spans three
dot-delimited segments. -/
def notifRow : Notification :=
  ⟨1, Json.str "pedido.estado.actualizado", some "pedido.estado.actualizado",
   Json.objNil, 0⟩

/-- A concrete one-row notification store. -/
def notifStore : List Notification := [notifRow]

/-- Case-insensitive dotted-prefix test on a stored row: does the
routing key start (case-insensitively) with `category` followed by a
dot?  This is what the endpoint's `ILIKE category + ".%"` filter amounts
to for a `category` free of SQL wildcard characters. -/
def categoryMatchCI (category : String) (n : Notification) : Bool :=
  match n.routing_key with
  | some rk => charPrefixCI (category.toList ++ ['.']) rk.toList
  | none => false

/-! ## Helper lemmas -/

theorem topicParamOrDefault_ne_empty (tp : Option String) :
    topicParamOrDefault tp ≠ "" := by
  cases tp with
  | none => simp [topicParamOrDefault, defaultTopic]
  | some t => by_cases h : t = "" <;> simp [topicParamOrDefault, h, defaultTopic]

theorem subscribeTopic_ne_empty (msg : Json) :
    subscribeTopic msg ≠ Json.str "" := by
  unfold subscribeTopic Json.pyOr
  split
  · simp [defaultTopic]
  · rename_i hfalsy
    intro heq
    rw [heq] at hfalsy
    simp [Json.falsy] at hfalsy

theorem handshake_cases (s : Gateway) (ws : Conn) (ah : Option String)
    (vs : Nat) (tp : Option String) :
    handshake s ws ah vs tp = ⟨s, false, false, some WS_1008_POLICY_VIOLATION⟩ ∨
    handshake s ws ah vs tp =
      ⟨⟨insert ws s.connections,
        fun t => if t = Json.str (topicParamOrDefault tp) then
          insert ws (s.subs t) else s.subs t⟩, true, true, none⟩ := by
  cases ah with
  | none => exact Or.inl rfl
  | some h =>
    by_cases hb : pyStartsWith h "Bearer " = true
    · by_cases hv : vs = 200
      · exact Or.inr (by simp [handshake, hb, hv])
      · exact Or.inl (by simp [handshake, hb, hv])
    · have hb' : pyStartsWith h "Bearer " = false := by simpa using hb
      exact Or.inl (by simp [handshake, hb'])

theorem clientMessageStep_cases (s : Gateway) (ws : Conn) (raw : String)
    (parsed : Option Json) :
    (∃ msg, clientMessageStep s ws raw parsed = (s, msg)) ∨
    (∃ topic, topic ≠ Json.str "" ∧
      clientMessageStep s ws raw parsed =
        (⟨s.connections,
          fun t => if t = topic then insert ws (s.subs t) else (s.subs t).erase ws⟩,
         Json.mkObj [("type", Json.str "subscribed"), ("topic", topic)])) := by
  unfold clientMessageStep
  set msg := (match parsed with | some j => j | none => echoWrap raw) with hmsg
  by_cases h : isSubscribeMsg msg = true
  · rw [if_pos h]
    exact Or.inr ⟨subscribeTopic msg, subscribeTopic_ne_empty msg, rfl⟩
  · rw [if_neg h]
    exact Or.inl ⟨msg, rfl⟩

theorem sdiff_filter_not_eq_filter (t : Finset Conn) (p : Conn → Bool) :
    t \ t.filter (fun c => ¬ p c) = t.filter (fun c => p c) := by
  ext c
  simp only [Finset.mem_sdiff, Finset.mem_filter]
  tauto

theorem publish_event_eq (s : Gateway) (event : Json) (sendOk : Conn → Bool) :
    publish_event s event sendOk =
      ((fanoutSweep s (event.objGetD "type" (Json.str defaultTopic)) sendOk).1,
       event.objGetD "type" (Json.str defaultTopic),
       (fanoutSweep s (event.objGetD "type" (Json.str defaultTopic)) sendOk).2.card) := rfl

theorem brokerCallback_exists_topic (s : Gateway) (rk : String)
    (parsed : Option Json) (raw : String) (sendOk : Conn → Bool) :
    ∃ topic, (brokerCallback s rk parsed raw sendOk).1 = (fanoutSweep s topic sendOk).1 ∧
      (brokerCallback s rk parsed raw sendOk).2.1 = (fanoutSweep s topic sendOk).2 :=
  ⟨_, rfl, rfl⟩

theorem brokerCallback_eq_of_ne (s : Gateway) (rk : String) (parsed : Option Json)
    (raw : String) (sendOk : Conn → Bool) (h : rk ≠ "") :
    brokerCallback s rk parsed raw sendOk =
      ((fanoutSweep s (Json.str rk) sendOk).1,
       (fanoutSweep s (Json.str rk) sendOk).2, true) := by
  simp [brokerCallback, h]

theorem fanoutSweep_subs_mono (s : Gateway) (topic : Json) (sendOk : Conn → Bool) :
    ∀ c t, c ∈ (fanoutSweep s topic sendOk).1.subs t → c ∈ s.subs t := by
  intro c t ht
  have ht' : c ∈ (if t = topic then
      s.subs topic \ (s.subs topic).filter (fun c => ¬ sendOk c)
    else s.subs t) := ht
  by_cases e : t = topic
  · rw [if_pos e] at ht'
    rw [e]
    exact (Finset.mem_sdiff.mp ht').1
  · rw [if_neg e] at ht'
    exact ht'

theorem fanout_preserves_atMostOne (s : Gateway) (topic : Json)
    (sendOk : Conn → Bool) (hinv : atMostOneTopic s) :
    atMostOneTopic (fanoutSweep s topic sendOk).1 := by
  intro c t₁ t₂ h₁ h₂
  exact hinv c t₁ t₂ (fanoutSweep_subs_mono s topic sendOk c t₁ h₁)
    (fanoutSweep_subs_mono s topic sendOk c t₂ h₂)

theorem gatewayStep_preserves_atMostOne {s s' : Gateway}
    (hstep : GatewayStep s s') (hinv : atMostOneTopic s) : atMostOneTopic s' := by
  cases hstep with
  | ofHandshake ws ah vs tp hconn hfresh =>
    rcases handshake_cases s ws ah vs tp with h | h
    · rw [h]; exact hinv
    · rw [h]
      intro c t₁ t₂ h₁ h₂
      have h₁' : c ∈ (if t₁ = Json.str (topicParamOrDefault tp) then
          insert ws (s.subs t₁) else s.subs t₁) := h₁
      have h₂' : c ∈ (if t₂ = Json.str (topicParamOrDefault tp) then
          insert ws (s.subs t₂) else s.subs t₂) := h₂
      by_cases e₁ : t₁ = Json.str (topicParamOrDefault tp)
      · by_cases e₂ : t₂ = Json.str (topicParamOrDefault tp)
        · rw [e₁, e₂]
        · rw [if_pos e₁] at h₁'
          rw [if_neg e₂] at h₂'
          rcases Finset.mem_insert.mp h₁' with rfl | h₁''
          · exact absurd h₂' (hfresh t₂)
          · exact hinv c t₁ t₂ h₁'' h₂'
      · rw [if_neg e₁] at h₁'
        by_cases e₂ : t₂ = Json.str (topicParamOrDefault tp)
        · rw [if_pos e₂] at h₂'
          rcases Finset.mem_insert.mp h₂' with rfl | h₂''
          · exact absurd h₁' (hfresh t₁)
          · exact hinv c t₁ t₂ h₁' h₂''
        · rw [if_neg e₂] at h₂'
          exact hinv c t₁ t₂ h₁' h₂'
  | ofClientMsg ws raw parsed =>
    rcases clientMessageStep_cases s ws raw parsed with ⟨msg, h⟩ | ⟨T, hT, h⟩
    · rw [h]; exact hinv
    · rw [h]
      intro c t₁ t₂ h₁ h₂
      have h₁' : c ∈ (if t₁ = T then insert ws (s.subs t₁) else (s.subs t₁).erase ws) := h₁
      have h₂' : c ∈ (if t₂ = T then insert ws (s.subs t₂) else (s.subs t₂).erase ws) := h₂
      by_cases e₁ : t₁ = T
      · by_cases e₂ : t₂ = T
        · rw [e₁, e₂]
        · rw [if_pos e₁] at h₁'
          rw [if_neg e₂] at h₂'
          have h₂'' := Finset.mem_erase.mp h₂'
          rcases Finset.mem_insert.mp h₁' with rfl | h₁''
          · exact absurd rfl h₂''.1
          · exact hinv c t₁ t₂ h₁'' h₂''.2
      · rw [if_neg e₁] at h₁'
        have h₁'' := Finset.mem_erase.mp h₁'
        by_cases e₂ : t₂ = T
        · rw [if_pos e₂] at h₂'
          rcases Finset.mem_insert.mp h₂' with rfl | h₂''
          · exact absurd rfl h₁''.1
          · exact hinv c t₁ t₂ h₁''.2 h₂''
        · rw [if_neg e₂] at h₂'
          exact hinv c t₁ t₂ h₁''.2 (Finset.mem_erase.mp h₂').2
  | ofDisconnect ws =>
    intro c t₁ t₂ h₁ h₂
    have h₁' : c ∈ (s.subs t₁).erase ws := h₁
    have h₂' : c ∈ (s.subs t₂).erase ws := h₂
    exact hinv c t₁ t₂ (Finset.mem_of_mem_erase h₁') (Finset.mem_of_mem_erase h₂')
  | ofHttpPublish event sendOk =>
    exact fanout_preserves_atMostOne s _ sendOk hinv
  | ofBroker rk parsed raw sendOk =>
    rcases brokerCallback_exists_topic s rk parsed raw sendOk with ⟨topic, h1, _⟩
    rw [h1]
    exact fanout_preserves_atMostOne s topic sendOk hinv

theorem reachable_atMostOne {s : Gateway} (h : Reachable s) : atMostOneTopic s := by
  induction h with
  | init =>
    intro c t₁ t₂ h₁ _
    simp [Gateway.init] at h₁
  | step _ hstep ih => exact gatewayStep_preserves_atMostOne hstep ih

theorem gatewayStep_preserves_no_empty {s s' : Gateway} (hstep : GatewayStep s s')
    (h : ∀ c, c ∉ s.subs (Json.str "")) : ∀ c, c ∉ s'.subs (Json.str "") := by
  cases hstep with
  | ofHandshake ws ah vs tp hconn hfresh =>
    rcases handshake_cases s ws ah vs tp with hc | hc <;> rw [hc]
    · exact h
    · intro c hmem
      have hmem' : c ∈ (if (Json.str "" : Json) = Json.str (topicParamOrDefault tp) then
          insert ws (s.subs (Json.str "")) else s.subs (Json.str "")) := hmem
      rw [if_neg (fun he => topicParamOrDefault_ne_empty tp (Json.str.inj he).symm)] at hmem'
      exact h c hmem'
  | ofClientMsg ws raw parsed =>
    rcases clientMessageStep_cases s ws raw parsed with ⟨msg, hc⟩ | ⟨T, hT, hc⟩ <;> rw [hc]
    · exact h
    · intro c hmem
      have hmem' : c ∈ (if (Json.str "" : Json) = T then
          insert ws (s.subs (Json.str "")) else (s.subs (Json.str "")).erase ws) := hmem
      rw [if_neg (fun he => hT he.symm)] at hmem'
      exact h c (Finset.mem_of_mem_erase hmem')
  | ofDisconnect ws =>
    intro c hmem
    have hmem' : c ∈ (s.subs (Json.str "")).erase ws := hmem
    exact h c (Finset.mem_of_mem_erase hmem')
  | ofHttpPublish event sendOk =>
    intro c hmem
    exact h c (fanoutSweep_subs_mono s _ sendOk c _ hmem)
  | ofBroker rk parsed raw sendOk =>
    rcases brokerCallback_exists_topic s rk parsed raw sendOk with ⟨topic, h1, _⟩
    rw [h1]
    intro c hmem
    exact h c (fanoutSweep_subs_mono s topic sendOk c _ hmem)

theorem reachable_no_empty {s : Gateway} (h : Reachable s) :
    ∀ c, c ∉ s.subs (Json.str "") := by
  induction h with
  | init => intro c hmem; simp [Gateway.init] at hmem
  | step _ hstep ih => exact gatewayStep_preserves_no_empty hstep ih

theorem gwS1_subs (t : Json) :
    gwS1.subs t = if t = Json.str "realtime.location" then {0} else ∅ := rfl

theorem gwS1_connections : gwS1.connections = {0} := rfl

theorem reachable_gwS1 : Reachable gwS1 :=
  Reachable.step Reachable.init
    (GatewayStep.ofHandshake Gateway.init 0 (some "Bearer tok") 200 none
      (by decide) (fun _ => Finset.not_mem_empty 0))

theorem reachable_gwS2 : Reachable gwS2 := by
  refine Reachable.step reachable_gwS1
    (GatewayStep.ofHandshake gwS1 1 (some "Bearer tok2") 200 none (by decide) ?_)
  intro t
  rw [gwS1_subs t]
  by_cases e : t = Json.str "realtime.location"
  · rw [if_pos e]; decide
  · rw [if_neg e]; exact Finset.not_mem_empty 1

/-! ## Claim theorems -/

/-- **C2**: in every reachable gateway state each connection appears in at
most one topic's subscriber set; an accepted handshake puts the fresh
connection in exactly the initial topic's set, and a subscribe message
leaves the connection in exactly the named topic's set and removes it
from every other, in the one step the handler performs. -/
theorem connection_in_at_most_one_topic :
    (∀ s, Reachable s → atMostOneTopic s) ∧
    (∀ s ws ah vs tp, (∀ t, ws ∉ s.subs t) →
      (handshake s ws ah vs tp).accepted = true →
      ws ∈ (handshake s ws ah vs tp).state.subs (Json.str (topicParamOrDefault tp)) ∧
      ∀ t, t ≠ Json.str (topicParamOrDefault tp) →
        ws ∉ (handshake s ws ah vs tp).state.subs t) ∧
    (∀ s ws raw msg, isSubscribeMsg msg = true →
      ws ∈ (clientMessageStep s ws raw (some msg)).1.subs (subscribeTopic msg) ∧
      ∀ t, t ≠ subscribeTopic msg →
        ws ∉ (clientMessageStep s ws raw (some msg)).1.subs t) := by
  refine ⟨fun s h => reachable_atMostOne h, ?_, ?_⟩
  · intro s ws ah vs tp hfresh hacc
    rcases handshake_cases s ws ah vs tp with h | h
    · rw [h] at hacc
      exact absurd hacc (by simp)
    · rw [h]
      constructor
      · show ws ∈ (if (Json.str (topicParamOrDefault tp) : Json) =
            Json.str (topicParamOrDefault tp) then
            insert ws (s.subs (Json.str (topicParamOrDefault tp)))
          else s.subs (Json.str (topicParamOrDefault tp)))
        rw [if_pos rfl]
        exact Finset.mem_insert_self ws _
      · intro t ht hmem
        have hmem' : ws ∈ (if t = Json.str (topicParamOrDefault tp) then
            insert ws (s.subs t) else s.subs t) := hmem
        rw [if_neg ht] at hmem'
        exact hfresh t hmem'
  · intro s ws raw msg hsub
    have hstep : clientMessageStep s ws raw (some msg) =
        (⟨s.connections, fun t => if t = subscribeTopic msg then
            insert ws (s.subs t) else (s.subs t).erase ws⟩,
         Json.mkObj [("type", Json.str "subscribed"), ("topic", subscribeTopic msg)]) := by
      simp only [clientMessageStep]
      rw [if_pos hsub]
    rw [hstep]
    constructor
    · show ws ∈ (if (subscribeTopic msg) = subscribeTopic msg then
          insert ws (s.subs (subscribeTopic msg))
        else (s.subs (subscribeTopic msg)).erase ws)
      rw [if_pos rfl]
      exact Finset.mem_insert_self ws _
    · intro t ht hmem
      have hmem' : ws ∈ (if t = subscribeTopic msg then
          insert ws (s.subs t) else (s.subs t).erase ws) := hmem
      rw [if_neg ht] at hmem'
      exact (Finset.mem_erase.mp hmem').1 rfl

/-- Witness for `connection_in_at_most_one_topic` at the concrete
reachable state `gwS1` with connection `0` subscribed to
`"realtime.location"`. -/
theorem connection_in_at_most_one_topic_witness :
    (0 : Conn) ∈ gwS1.subs (Json.str "realtime.location") ∧
      Json.str "realtime.location" = Json.str "realtime.location" :=
  ⟨by decide,
   connection_in_at_most_one_topic.1 gwS1 reachable_gwS1 0
     (Json.str "realtime.location") (Json.str "realtime.location")
     (by decide) (by decide)⟩

/-- **C10**: a subscribe message naming the topic the connection is
already subscribed to leaves every topic's subscriber set unchanged (the
subscription index is idempotent under re-subscription) and the gateway
still acks with `{"type":"subscribed","topic":T}`. -/
theorem resubscribe_same_topic_idempotent (s : Gateway) (ws : Conn)
    (T raw : String) (hreach : Reachable s)
    (hmem : ws ∈ s.subs (Json.str T)) :
    (∀ t, (clientMessageStep s ws raw (some (subscribeMsg T))).1.subs t = s.subs t) ∧
    (clientMessageStep s ws raw (some (subscribeMsg T))).2 = subscribedAck T := by
  have hne : T ≠ "" := fun h => reachable_no_empty hreach ws (h ▸ hmem)
  have htopic : subscribeTopic (subscribeMsg T) = Json.str T := by
    simp [subscribeTopic, subscribeMsg, Json.mkObj, Json.objGetD, Json.objGet,
      Json.pyOr, Json.falsy, hne]
  have hsub : isSubscribeMsg (subscribeMsg T) = true := by
    simp [isSubscribeMsg, subscribeMsg, Json.mkObj, Json.isObj, Json.objGet]
  have hstep : clientMessageStep s ws raw (some (subscribeMsg T)) =
      (⟨s.connections, fun t => if t = Json.str T then insert ws (s.subs t)
          else (s.subs t).erase ws⟩,
       Json.mkObj [("type", Json.str "subscribed"), ("topic", Json.str T)]) := by
    simp only [clientMessageStep]
    rw [if_pos hsub, htopic]
  rw [hstep]
  refine ⟨?_, rfl⟩
  intro t
  show (if t = Json.str T then insert ws (s.subs t) else (s.subs t).erase ws) = s.subs t
  by_cases e : t = Json.str T
  · rw [if_pos e, e]
    exact Finset.insert_eq_self.mpr hmem
  · rw [if_neg e]
    exact Finset.erase_eq_of_not_mem
      (fun hmem' => e (reachable_atMostOne hreach ws t (Json.str T) hmem' hmem))

/-- Witness for `resubscribe_same_topic_idempotent`: connection `0` of
`gwS1` re-subscribes to `"realtime.location"`. -/
theorem resubscribe_same_topic_idempotent_witness :
    (0 : Conn) ∈ gwS1.subs (Json.str "realtime.location") ∧
    (clientMessageStep gwS1 0 "m" (some (subscribeMsg "realtime.location"))).1.subs
        (Json.str "realtime.location") = gwS1.subs (Json.str "realtime.location") ∧
    (clientMessageStep gwS1 0 "m" (some (subscribeMsg "realtime.location"))).2 =
      subscribedAck "realtime.location" := by
  have h := resubscribe_same_topic_idempotent gwS1 0 "realtime.location" "m"
    reachable_gwS1 (by decide)
  exact ⟨by decide, h.1 (Json.str "realtime.location"), h.2⟩

/-- **C5**: a WebSocket connection attempt whose Authorization header is
missing or not of the `Bearer ` form, or whose token verification
returns non-200, is closed with the policy-violation code 1008, leaves
the gateway state untouched (never enters the registry or any subscriber
set), and never receives the welcome frame. -/
theorem failed_auth_never_registered (s : Gateway) (ws : Conn)
    (ah : Option String) (vs : Nat) (tp : Option String)
    (h : ah = none ∨ (∃ a, ah = some a ∧ pyStartsWith a "Bearer " = false) ∨ vs ≠ 200) :
    (handshake s ws ah vs tp).state = s ∧
    (handshake s ws ah vs tp).accepted = false ∧
    (handshake s ws ah vs tp).welcomed = false ∧
    (handshake s ws ah vs tp).closeCode = some WS_1008_POLICY_VIOLATION := by
  rcases h with h | ⟨a, ha, hb⟩ | hv
  · subst h
    exact ⟨rfl, rfl, rfl, rfl⟩
  · subst ha
    simp [handshake, hb]
  · cases ah with
    | none => exact ⟨rfl, rfl, rfl, rfl⟩
    | some a =>
      by_cases hb : pyStartsWith a "Bearer " = true
      · simp [handshake, hb, hv]
      · have hb' : pyStartsWith a "Bearer " = false := by simpa using hb
        simp [handshake, hb']

/-- Witness for `failed_auth_never_registered`: a `Token ...` header is
not a bearer credential, so the connection is rejected and `gwS1` is
unchanged. -/
theorem failed_auth_never_registered_witness :
    pyStartsWith "Token abc" "Bearer " = false ∧
    (handshake gwS1 5 (some "Token abc") 200 none).state = gwS1 ∧
    (handshake gwS1 5 (some "Token abc") 200 none).welcomed = false :=
  ⟨by decide,
   (failed_auth_never_registered gwS1 5 (some "Token abc") 200 none
     (Or.inr (Or.inl ⟨"Token abc", rfl, by decide⟩))).1,
   (failed_auth_never_registered gwS1 5 (some "Token abc") 200 none
     (Or.inr (Or.inl ⟨"Token abc", rfl, by decide⟩))).2.2.1⟩

/-- **C8**: a client frame that is not a subscribe object is echoed back
— parsed JSON verbatim, invalid JSON wrapped as
`{"type":"echo","data":raw}` — and the gateway state (hence every
subscription) is unchanged. -/
theorem non_subscribe_frames_echoed (s : Gateway) (ws : Conn) (raw : String)
    (parsed : Option Json)
    (h : ∀ j, parsed = some j → isSubscribeMsg j = false) :
    (parsed = none → clientMessageStep s ws raw parsed = (s, echoWrap raw)) ∧
    (∀ j, parsed = some j → clientMessageStep s ws raw parsed = (s, j)) ∧
    (clientMessageStep s ws raw parsed).1 = s := by
  have hecho : isSubscribeMsg (echoWrap raw) = false := by
    simp [isSubscribeMsg, echoWrap, Json.mkObj, Json.objGet]
  refine ⟨?_, ?_, ?_⟩
  · intro hp
    subst hp
    simp only [clientMessageStep]
    rw [if_neg (by simp [hecho])]
  · intro j hp
    subst hp
    have hj := h j rfl
    simp only [clientMessageStep]
    rw [if_neg (by simp [hj])]
  · rcases parsed with _ | j
    · simp only [clientMessageStep]
      rw [if_neg (by simp [hecho])]
    · have hj := h j rfl
      simp only [clientMessageStep]
      rw [if_neg (by simp [hj])]

/-- Witness for `non_subscribe_frames_echoed`: the JSON number `5` is not
a subscribe object and is echoed back verbatim with the state
unchanged. -/
theorem non_subscribe_frames_echoed_witness :
    isSubscribeMsg (Json.num 5) = false ∧
    clientMessageStep gwS1 0 "5" (some (Json.num 5)) = (gwS1, Json.num 5) :=
  ⟨by decide,
   (non_subscribe_frames_echoed gwS1 0 "5" (some (Json.num 5))
     (fun j hj => by cases hj; decide)).2.1 (Json.num 5) rfl⟩

/-- **C6**: the publish endpoint fans out on the envelope's `type` field
(the fixed default `"realtime.location"` when the field is absent) and
responds with that topic and `delivered` = the number of subscribers
whose send succeeded, the failed ones having been removed from the
topic's set and the registry before the count is taken. -/
theorem publish_endpoint_contract (s : Gateway) (event : Json)
    (sendOk : Conn → Bool) :
    (publish_event s event sendOk).2.1 =
      event.objGetD "type" (Json.str defaultTopic) ∧
    (event.objGet "type" = none →
      (publish_event s event sendOk).2.1 = Json.str "realtime.location") ∧
    (∀ v, event.objGet "type" = some v →
      (publish_event s event sendOk).2.1 = v) ∧
    (publish_event s event sendOk).2.2 =
      ((s.subs (event.objGetD "type" (Json.str defaultTopic))).filter
        (fun c => sendOk c)).card ∧
    (publish_event s event sendOk).1.subs
        (event.objGetD "type" (Json.str defaultTopic)) =
      (s.subs (event.objGetD "type" (Json.str defaultTopic))).filter
        (fun c => sendOk c) ∧
    (∀ t, t ≠ event.objGetD "type" (Json.str defaultTopic) →
      (publish_event s event sendOk).1.subs t = s.subs t) ∧
    (publish_event s event sendOk).1.connections =
      s.connections \
        ((s.subs (event.objGetD "type" (Json.str defaultTopic))).filter
          (fun c => ¬ sendOk c)) := by
  refine ⟨rfl, ?_, ?_, ?_, ?_, ?_, rfl⟩
  · intro h
    show Json.objGetD event "type" (Json.str defaultTopic) = Json.str "realtime.location"
    simp [Json.objGetD, h, defaultTopic]
  · intro v hv
    show Json.objGetD event "type" (Json.str defaultTopic) = v
    simp [Json.objGetD, hv]
  · show ((s.subs (event.objGetD "type" (Json.str defaultTopic))) \
        (s.subs (event.objGetD "type" (Json.str defaultTopic))).filter
          (fun c => ¬ sendOk c)).card = _
    rw [sdiff_filter_not_eq_filter]
  · show (if event.objGetD "type" (Json.str defaultTopic) =
        event.objGetD "type" (Json.str defaultTopic) then
        (s.subs (event.objGetD "type" (Json.str defaultTopic))) \
          (s.subs (event.objGetD "type" (Json.str defaultTopic))).filter
            (fun c => ¬ sendOk c)
      else s.subs (event.objGetD "type" (Json.str defaultTopic))) = _
    rw [if_pos rfl, sdiff_filter_not_eq_filter]
  · intro t ht
    show (if t = event.objGetD "type" (Json.str defaultTopic) then
        (s.subs (event.objGetD "type" (Json.str defaultTopic))) \
          (s.subs (event.objGetD "type" (Json.str defaultTopic))).filter
            (fun c => ¬ sendOk c)
      else s.subs t) = s.subs t
    rw [if_neg ht]

/-- Witness for `publish_endpoint_contract`: publishing
`{"type":"realtime.location"}` into `gwS1` with all sends succeeding
reports the type field as topic, delivers to 1 subscriber, and leaves an
unrelated topic's set unchanged. -/
theorem publish_endpoint_contract_witness :
    (Json.mkObj [("type", Json.str "realtime.location")]).objGet "type" =
      some (Json.str "realtime.location") ∧
    (publish_event gwS1 (Json.mkObj [("type", Json.str "realtime.location")])
      (fun _ => true)).2.1 = Json.str "realtime.location" ∧
    (publish_event gwS1 (Json.mkObj [("type", Json.str "realtime.location")])
      (fun _ => true)).2.2 = 1 ∧
    (publish_event gwS1 (Json.mkObj [("type", Json.str "realtime.location")])
      (fun _ => true)).1.subs (Json.str "pedido.creado") =
      gwS1.subs (Json.str "pedido.creado") :=
  ⟨by decide,
   (publish_endpoint_contract gwS1 (Json.mkObj [("type", Json.str "realtime.location")])
     (fun _ => true)).2.2.1 (Json.str "realtime.location") (by decide),
   by decide,
   (publish_endpoint_contract gwS1 (Json.mkObj [("type", Json.str "realtime.location")])
     (fun _ => true)).2.2.2.2.2.1 (Json.str "pedido.creado") (by decide)⟩

/-- **C7**: in every fan-out sweep (the one sweep shared by the broker
callback and the HTTP publish endpoint) a send failure is isolated to
the failing connection — every subscriber whose send succeeds is still
delivered to — and each failed connection is removed from the topic's
subscriber set and the global registry (hence, subscriber sets being
disjoint, from every topic's set), so subsequent sweeps never attempt to
send to it. -/
theorem fanout_send_failure_isolated (s : Gateway) (topic : Json)
    (sendOk : Conn → Bool) :
    (fanoutSweep s topic sendOk).2 = (s.subs topic).filter (fun c => sendOk c) ∧
    (∀ c, c ∈ s.subs topic → sendOk c = true →
      c ∈ (fanoutSweep s topic sendOk).2) ∧
    (∀ c, c ∈ s.subs topic → sendOk c = false →
      c ∉ (fanoutSweep s topic sendOk).1.subs topic ∧
      c ∉ (fanoutSweep s topic sendOk).1.connections ∧
      (atMostOneTopic s → ∀ t, c ∉ (fanoutSweep s topic sendOk).1.subs t)) ∧
    (∀ event, publish_event s event sendOk =
      ((fanoutSweep s (event.objGetD "type" (Json.str defaultTopic)) sendOk).1,
       event.objGetD "type" (Json.str defaultTopic),
       (fanoutSweep s (event.objGetD "type" (Json.str defaultTopic)) sendOk).2.card)) ∧
    (∀ rk parsed raw, rk ≠ "" → brokerCallback s rk parsed raw sendOk =
      ((fanoutSweep s (Json.str rk) sendOk).1,
       (fanoutSweep s (Json.str rk) sendOk).2, true)) := by
  have hdead : ∀ c, c ∈ s.subs topic → sendOk c = false →
      c ∈ (s.subs topic).filter (fun c => ¬ sendOk c) := by
    intro c hc hf
    exact Finset.mem_filter.mpr ⟨hc, by simp [hf]⟩
  refine ⟨sdiff_filter_not_eq_filter _ _, ?_, ?_, ?_, ?_⟩
  · intro c hc hok
    show c ∈ (s.subs topic) \ (s.subs topic).filter (fun c => ¬ sendOk c)
    rw [sdiff_filter_not_eq_filter]
    exact Finset.mem_filter.mpr ⟨hc, hok⟩
  · intro c hc hf
    refine ⟨?_, ?_, ?_⟩
    · show c ∉ (if topic = topic then
          (s.subs topic) \ (s.subs topic).filter (fun c => ¬ sendOk c)
        else s.subs topic)
      rw [if_pos rfl]
      intro hmem
      exact (Finset.mem_sdiff.mp hmem).2 (hdead c hc hf)
    · show c ∉ s.connections \ (s.subs topic).filter (fun c => ¬ sendOk c)
      intro hmem
      exact (Finset.mem_sdiff.mp hmem).2 (hdead c hc hf)
    · intro hinv t hmem
      by_cases e : t = topic
      · subst e
        have hmem' : c ∈ (if t = t then
            (s.subs t) \ (s.subs t).filter (fun c => ¬ sendOk c)
          else s.subs t) := hmem
        rw [if_pos rfl] at hmem'
        exact (Finset.mem_sdiff.mp hmem').2 (hdead c hc hf)
      · have hmem' : c ∈ (if t = topic then
            (s.subs topic) \ (s.subs topic).filter (fun c => ¬ sendOk c)
          else s.subs t) := hmem
        rw [if_neg e] at hmem'
        exact e (hinv c t topic hmem' hc)
  · intro event
    exact publish_event_eq s event sendOk
  · intro rk parsed raw hne
    exact brokerCallback_eq_of_ne s rk parsed raw sendOk hne

/-- Witness for `fanout_send_failure_isolated`: in `gwS2` (connections 0
and 1 both on `"realtime.location"`) a sweep in which only connection
0's send succeeds still delivers to 0, and connection 1 is reaped from
every subscriber set and the registry. -/
theorem fanout_send_failure_isolated_witness :
    (0 : Conn) ∈ gwS2.subs (Json.str "realtime.location") ∧
    (1 : Conn) ∈ gwS2.subs (Json.str "realtime.location") ∧
    (0 : Conn) ∈ (fanoutSweep gwS2 (Json.str "realtime.location")
      (fun c => c == 0)).2 ∧
    (1 : Conn) ∉ (fanoutSweep gwS2 (Json.str "realtime.location")
      (fun c => c == 0)).1.subs (Json.str "pedido.creado") ∧
    (1 : Conn) ∉ (fanoutSweep gwS2 (Json.str "realtime.location")
      (fun c => c == 0)).1.connections := by
  have h := fanout_send_failure_isolated gwS2 (Json.str "realtime.location")
    (fun c => c == 0)
  refine ⟨by decide, by decide, h.2.1 0 (by decide) (by decide), ?_,
    (h.2.2.1 1 (by decide) (by decide)).2.1⟩
  exact (h.2.2.1 1 (by decide) (by decide)).2.2
    (reachable_atMostOne reachable_gwS2) (Json.str "pedido.creado")

/-- **C4**: the notification consumer deserializes the body as the event
envelope (degrading to a raw `{"raw": body}` record when it is not valid
JSON), persists `(event_type, routing_key, payload, received_at)` when
the persistence attempt succeeds, and acknowledges the message exactly
once on every path, whether persistence succeeded or failed. -/
theorem consumer_persists_and_acks_once (store : List Notification)
    (nextId : Nat) (raw : String) (parsed : Option Json) (rk : String)
    (persistOk : Bool) (now : Nat) :
    (notifCallback store nextId raw parsed rk persistOk now).2 = 1 ∧
    (parsed = none → persistOk = true →
      (notifCallback store nextId raw parsed rk persistOk now).1 =
        store ++ [⟨nextId, Json.str "unknown", some rk,
          Json.mkObj [("raw", Json.str raw)], now⟩]) ∧
    (∀ j, parsed = some j → j.isObj = true → persistOk = true →
      (notifCallback store nextId raw parsed rk persistOk now).1 =
        store ++ [⟨nextId, j.objGetD "type" (Json.str "unknown"), some rk, j, now⟩]) ∧
    (persistOk = false →
      (notifCallback store nextId raw parsed rk persistOk now).1 = store) := by
  refine ⟨rfl, ?_, ?_, ?_⟩
  · intro hp hok
    subst hp
    subst hok
    simp [notifCallback, Json.mkObj, Json.isObj, Json.objGetD, Json.objGet]
  · intro j hp hobj hok
    subst hp
    subst hok
    simp [notifCallback, hobj]
  · intro hok
    subst hok
    simp [notifCallback]

/-- Witness for `consumer_persists_and_acks_once`: an invalid JSON body
is stored as the raw fallback record with `event_type = "unknown"` and
the message is acked once. -/
theorem consumer_persists_and_acks_once_witness :
    (notifCallback [] 1 "oops" none "pedido.creado" true 7).2 = 1 ∧
    (notifCallback [] 1 "oops" none "pedido.creado" true 7).1 =
      [⟨1, Json.str "unknown", some "pedido.creado",
        Json.mkObj [("raw", Json.str "oops")], 7⟩] := by
  have h := consumer_persists_and_acks_once [] 1 "oops" none "pedido.creado" true 7
  exact ⟨h.1, h.2.1 rfl rfl⟩

/-- **C3**: every producer-side publish (pedido creation, pedido state
change, fleet location update) is best-effort: the repository operation
returns the already-committed entity whatever the broker or HTTP
outcome; on any broker failure exactly one HTTP POST of the same
envelope is made with a 2-second timeout, delivering iff the POST
succeeds (the event is dropped silently otherwise), and no failure
propagates. -/
theorem publish_failures_never_propagate {α : Type} (db : List α) (entity : α)
    (dataJ : Json) (b : Option BrokerFailure) (httpOk : Bool) :
    (create_pedido db entity dataJ b httpOk).1 = (db ++ [entity], entity) ∧
    (update_pedido entity true dataJ b httpOk).1 = entity ∧
    (update_repartidor entity true dataJ b httpOk).1 = entity ∧
    (b = none → ∀ env rk, publishWithFallback env rk b httpOk =
      ⟨env, rk, "logiflow.events", true, 0, 0, none, false⟩) ∧
    (b ≠ none → ∀ env rk,
      (publishWithFallback env rk b httpOk).httpPosts = 1 ∧
      (publishWithFallback env rk b httpOk).httpTimeoutSeconds = 2 ∧
      (publishWithFallback env rk b httpOk).httpBody = some env ∧
      (publishWithFallback env rk b httpOk).brokerDelivered = false ∧
      (publishWithFallback env rk b httpOk).httpDelivered = httpOk) := by
  refine ⟨rfl, rfl, rfl, ?_, ?_⟩
  · intro h env rk
    subst h
    rfl
  · intro h env rk
    cases b with
    | none => exact absurd rfl h
    | some e => cases httpOk <;> simp [publishWithFallback, brokerPublish, httpPost]

/-- Witness for `publish_failures_never_propagate`: with the broker
connection failing and the HTTP fallback also failing, the pedido is
still created and returned, one fallback POST was made, and the event
was dropped. -/
theorem publish_failures_never_propagate_witness :
    (some BrokerFailure.connectFail ≠ (none : Option BrokerFailure)) ∧
    (create_pedido ([] : List Nat) 7 Json.objNil
      (some BrokerFailure.connectFail) false).1 = ([7], 7) ∧
    (publishWithFallback (pedidoCreadoEnvelope Json.objNil) "pedido.creado"
      (some BrokerFailure.connectFail) false).httpPosts = 1 ∧
    (publishWithFallback (pedidoCreadoEnvelope Json.objNil) "pedido.creado"
      (some BrokerFailure.connectFail) false).httpDelivered = false := by
  have h := publish_failures_never_propagate ([] : List Nat) 7 Json.objNil
    (some BrokerFailure.connectFail) false
  exact ⟨by decide, h.1,
    (h.2.2.2.2 (by decide) (pedidoCreadoEnvelope Json.objNil) "pedido.creado").1,
    (h.2.2.2.2 (by decide) (pedidoCreadoEnvelope Json.objNil) "pedido.creado").2.2.2.2⟩

theorem likeMatch_percent_nil (s : List Char) : likeMatch ['%'] s = true := by
  have h : anySuffix (likeMatch []) s = true := by
    induction s with
    | nil => rfl
    | cons c s ih => simp [anySuffix, ih]
  exact h

theorem likeMatch_append_percent (p s : List Char)
    (hp : ∀ ch ∈ p, ch ≠ '%' ∧ ch ≠ '_' ∧ ch ≠ '\\') :
    likeMatch (p ++ ['%']) s = charPrefixCI p s := by
  induction p generalizing s with
  | nil =>
    show likeMatch ['%'] s = true
    exact likeMatch_percent_nil s
  | cons ch ps ih =>
    have hch := hp ch (List.mem_cons_self ch ps)
    have hps : ∀ x ∈ ps, x ≠ '%' ∧ x ≠ '_' ∧ x ≠ '\\' :=
      fun x hx => hp x (List.mem_cons_of_mem ch hx)
    cases s with
    | nil =>
      show likeMatch (ch :: (ps ++ ['%'])) [] = charPrefixCI (ch :: ps) []
      rw [likeMatch.eq_def]
      simp [charPrefixCI, hch.1, hch.2.2]
    | cons c s' =>
      show likeMatch (ch :: (ps ++ ['%'])) (c :: s') = charPrefixCI (ch :: ps) (c :: s')
      rw [likeMatch.eq_def]
      simp [charPrefixCI, hch.1, hch.2.1, hch.2.2, ih s' hps]

/-- Counterexample to **C9** as stated: for category `"pedido"` the
endpoint returns the stored row whose routing key
`"pedido.estado.actualizado"` spans two segments after the prefix, which
the claimed single-segment pattern `pedido.*` does not match — the SQL
`ILIKE 'pedido.%'` filter matches any suffix. -/
theorem category_filter_not_single_segment :
    list_notifications_by_category notifStore "pedido" 50 0 = [notifRow] ∧
    specCategoryMatch "pedido" "pedido.estado.actualizado" = false := by
  constructor
  · decide
  · decide

/-- **C9** (amended): for a category free of the SQL pattern
metacharacters (`%`, `_` and the default escape `\`) the category
endpoint returns exactly the stored notifications whose (non-null)
routing key starts case-insensitively with `category` followed by a dot
— the `%` of the `ILIKE category + ".%"` pattern spans any number of
characters, including further dot-delimited segments, not exactly one
segment — ordered reverse-chronologically by creation time and
paginated by `limit` and `offset`. -/
theorem category_endpoint_ilike_semantics (store : List Notification)
    (category : String) (limit offset : Nat)
    (hmeta : ∀ ch ∈ category.toList, ch ≠ '%' ∧ ch ≠ '_' ∧ ch ≠ '\\') :
    (list_notifications_by_category store category limit offset =
      (((store.filter (categoryMatchCI category)).insertionSort
        notifOrder).drop offset).take limit) ∧
    List.Sorted notifOrder (list_notifications_by_category store category limit offset) ∧
    (∀ n, n ∈ list_notifications_by_category store category limit offset →
      categoryMatchCI category n = true) ∧
    (offset = 0 → store.length ≤ limit →
      ∀ n, n ∈ list_notifications_by_category store category limit offset ↔
        n ∈ store ∧ categoryMatchCI category n = true) := by
  have hlist : (category ++ ".%").toList = (category.toList ++ ['.']) ++ ['%'] := by
    have h1 : (category ++ ".%").toList = category.toList ++ ['.', '%'] := by
      simp [String.toList, String.data_append]
    rw [h1, show (['.', '%'] : List Char) = ['.'] ++ ['%'] from rfl,
      ← List.append_assoc]
  have hp : ∀ ch ∈ category.toList ++ ['.'], ch ≠ '%' ∧ ch ≠ '_' ∧ ch ≠ '\\' := by
    intro ch hch
    rcases List.mem_append.mp hch with h | h
    · exact hmeta ch h
    · simp only [List.mem_singleton] at h
      subst h
      exact ⟨by decide, by decide, by decide⟩
  have hpred : ∀ n : Notification,
      (match n.routing_key with
       | some rk => likeMatch (category ++ ".%").toList rk.toList
       | none => false) = categoryMatchCI category n := by
    intro n
    cases hn : n.routing_key with
    | none => simp [categoryMatchCI, hn]
    | some rk =>
      simp only [categoryMatchCI, hn]
      rw [hlist, likeMatch_append_percent (category.toList ++ ['.']) rk.toList hp]
  have hfilter : store.filter (fun n =>
      match n.routing_key with
      | some rk => likeMatch (category ++ ".%").toList rk.toList
      | none => false) = store.filter (categoryMatchCI category) :=
    List.filter_congr (fun n _ => hpred n)
  have hmain : list_notifications_by_category store category limit offset =
      (((store.filter (categoryMatchCI category)).insertionSort
        notifOrder).drop offset).take limit := by
    show (((store.filter (fun n =>
        match n.routing_key with
        | some rk => likeMatch (category ++ ".%").toList rk.toList
        | none => false)).insertionSort notifOrder).drop offset).take limit = _
    rw [hfilter]
  have hsorted : List.Sorted notifOrder
      ((store.filter (categoryMatchCI category)).insertionSort notifOrder) :=
    List.sorted_insertionSort notifOrder _
  have hsub : List.Sublist
      ((((store.filter (categoryMatchCI category)).insertionSort
        notifOrder).drop offset).take limit)
      ((store.filter (categoryMatchCI category)).insertionSort notifOrder) :=
    List.Sublist.trans (List.take_sublist _ _) (List.drop_sublist _ _)
  refine ⟨hmain, ?_, ?_, ?_⟩
  · rw [hmain]
    exact hsorted.sublist hsub
  · intro n hn
    rw [hmain] at hn
    have hn' : n ∈ (store.filter (categoryMatchCI category)).insertionSort notifOrder :=
      hsub.subset hn
    have hn'' : n ∈ store.filter (categoryMatchCI category) :=
      (List.perm_insertionSort notifOrder _).mem_iff.mp hn'
    exact (List.mem_filter.mp hn'').2
  · intro hoff hlim n
    subst hoff
    rw [hmain, List.drop_zero, List.take_of_length_le ?_]
    · rw [(List.perm_insertionSort notifOrder _).mem_iff, List.mem_filter]
    · calc ((store.filter (categoryMatchCI category)).insertionSort notifOrder).length
          = (store.filter (categoryMatchCI category)).length :=
            (List.perm_insertionSort notifOrder _).length_eq
        _ ≤ store.length := List.length_filter_le _ _
        _ ≤ limit := hlim

/-- Witness for `category_endpoint_ilike_semantics` at the concrete store: the
category `"pedido"` has no SQL wildcard characters, the returned rows
all match the dotted prefix, and the output is sorted. -/
theorem category_endpoint_ilike_semantics_witness :
    (∀ ch ∈ ("pedido" : String).toList, ch ≠ '%' ∧ ch ≠ '_' ∧ ch ≠ '\\') ∧
    List.Sorted notifOrder (list_notifications_by_category notifStore "pedido" 50 0) ∧
    (list_notifications_by_category notifStore "pedido" 50 0 =
      (((notifStore.filter (categoryMatchCI "pedido")).insertionSort
        notifOrder).drop 0).take 50) :=
  ⟨by decide,
   (category_endpoint_ilike_semantics notifStore "pedido" 50 0 (by decide)).2.1,
   (category_endpoint_ilike_semantics notifStore "pedido" 50 0 (by decide)).1⟩
